import Mathlib

/-!
Shallow embedding of src/trading_bot.py (a Binance Futures testnet CLI bot).

The remote exchange is modelled as an oracle: a `Client` record whose fields
give, for each SDK endpoint used by the bot, the outcome of calling it
(`Except PyExc` of a response).  Pass-through response dictionaries are
modelled as association lists of strings.  Each bot method returns an
`Effect`: its Python return value, the bot state after the call, the list of
remote calls it issued (in order), and the list of log events it emitted.
Python floats appearing in the bot (quantities and prices, which the bot only
compares with 0 and passes through) are modelled as rationals.  Exact textual
rendering of numbers and exception objects inside log messages abstracts from
CPython repr details; no claim depends on it.
-/

namespace TradingBot

/-- Exceptions that can cross the modelled boundaries: the two SDK exception
classes named in the source, ValueError raised by the validation code, and a
catch-all for every other exception class. -/
inductive PyExc where
  | binanceAPI (status_code : Int) (message : String)
  | binanceOrder (status_code : Int) (message : String)
  | valueError (message : String)
  | other (message : String)
  deriving DecidableEq

/-- Python str(e) for the exceptions above (message rendering abstracted). -/
def pyStr : PyExc → String
  | .binanceAPI _ m => m
  | .binanceOrder _ m => m
  | .valueError m => m
  | .other m => m

/-- Python str.upper, modelled as uppercasing every character (the
basic-latin mapping of Char.toUpper; the strings this program uppercases are
trading symbols and sides). -/
def pyUpper (s : String) : String := String.mk (s.data.map Char.toUpper)

/-- Python str.lower, modelled as lowercasing every character. -/
def pyLower (s : String) : String := String.mk (s.data.map Char.toLower)

/-- Python str.strip with no argument: remove leading and trailing
whitespace characters. -/
def pyStrip (s : String) : String :=
  String.mk
    (((s.data.dropWhile Char.isWhitespace).reverse.dropWhile
        Char.isWhitespace).reverse)

/-- A pass-through response dictionary (string keys to string-rendered values). -/
abbrev Dict := List (String × String)

/-- Python dict.get with no default: `d.get k`. -/
def dictGet (d : Dict) (k : String) : Option String :=
  (d.find? (fun p => p.1 == k)).map (fun p => p.2)

/-- One entry of exchange_info.symbols, as read by _validate_symbol. -/
structure SymbolInfo where
  symbol : String
  deriving DecidableEq

/-- The futures_exchange_info response, as read by _validate_symbol. -/
structure ExchangeInfo where
  symbols : List SymbolInfo
  deriving DecidableEq

/-- The keyword arguments the bot passes to client.futures_create_order. -/
structure CreateOrderRequest where
  symbol : String
  side : String
  type : String
  timeInForce : Option String := none
  quantity : Rat
  price : Option Rat := none
  stopPrice : Option Rat := none
  deriving DecidableEq

/-- A remote call issued through the SDK client. -/
inductive RemoteCall where
  | account
  | exchangeInfo
  | createOrder (req : CreateOrderRequest)
  | getOpenOrders (symbol : Option String)
  | cancelOrder (symbol : String) (orderId : Int)
  deriving DecidableEq

/-- A logging event (logger.info / logger.error). -/
inductive LogEvent where
  | info (msg : String)
  | error (msg : String)
  deriving DecidableEq

/-- The oracle for the authenticated SDK client: for each endpoint the bot
uses, the outcome the exchange would give to that call. -/
structure Client where
  API_URL : String
  futures_account : Except PyExc Dict
  futures_exchange_info : Except PyExc ExchangeInfo
  futures_create_order : CreateOrderRequest → Except PyExc Dict
  futures_get_open_orders : Option String → Except PyExc (List Dict)
  futures_cancel_order : String → Int → Except PyExc Dict

/-- The state of a BasicBot instance: its only attribute is self.client. -/
structure BotState where
  client : Client

/-- Outcome of running one bot method: the Python return value, the bot state
afterwards, the remote calls issued (in order) and the log events emitted. -/
structure Effect (α : Type) where
  ret : α
  bot : BotState
  calls : List RemoteCall
  log : List LogEvent

/-- BasicBot._test_connection, run on a freshly constructed client. -/
def BasicBot.test_connection (client : Client) :
    Except PyExc Unit × List RemoteCall × List LogEvent :=
  match client.futures_account with
  | .ok account =>
      let bal := (dictGet account "totalWalletBalance").getD "N/A"
      (.ok (), [.account],
        [.info "Connection successful",
         .info ("Account balance: " ++ bal ++ " USDT")])
  | .error e =>
      let m := pyStr e
      (.error e, [.account], [.error ("Connection test failed: " ++ m)])

/-- BasicBot.__init__: `construct` is the outcome of Client(api_key,
api_secret, testnet=testnet).  On any failure the exception is logged and
re-raised (returned as .error). -/
def BasicBot.init (construct : Except PyExc Client) (testnet : Bool) :
    Except PyExc BotState × List RemoteCall × List LogEvent :=
  match construct with
  | .error e =>
      let m := pyStr e
      (.error e, [], [.error ("Failed to initialize bot: " ++ m)])
  | .ok client0 =>
      let client :=
        if testnet then
          { client0 with API_URL := "https://testnet.binancefuture.com" }
        else client0
      let envName := if testnet then "TESTNET" else "LIVE"
      let logs1 :=
        [LogEvent.info "Bot initialized successfully",
         LogEvent.info ("Using " ++ envName ++ " environment")]
      match BasicBot.test_connection client with
      | (.ok _, calls, logs2) =>
          (.ok { client := client }, calls, logs1 ++ logs2)
      | (.error e, calls, logs2) =>
          let m := pyStr e
          (.error e, calls,
            logs1 ++ logs2 ++ [.error ("Failed to initialize bot: " ++ m)])

/-- BasicBot._validate_symbol. -/
def BasicBot.validate_symbol (b : BotState) (symbol : String) : Effect Bool :=
  match b.client.futures_exchange_info with
  | .ok exchange_info =>
      let symbols := exchange_info.symbols.map (fun s => s.symbol)
      { ret := symbols.contains (pyUpper symbol), bot := b,
        calls := [.exchangeInfo], log := [] }
  | .error e =>
      let m := pyStr e
      { ret := false, bot := b, calls := [.exchangeInfo],
        log := [.error ("Symbol validation failed: " ++ m)] }

/-- BasicBot._log_order_details (timestamp rendering abstracted). -/
def BasicBot.log_order_details (order : Dict) : List LogEvent :=
  [.info "ORDER EXECUTED SUCCESSFULLY",
   .info ("Order ID: " ++ (dictGet order "orderId").getD "None"),
   .info ("Symbol: " ++ (dictGet order "symbol").getD "None"),
   .info ("Side: " ++ (dictGet order "side").getD "None"),
   .info ("Type: " ++ (dictGet order "type").getD "None"),
   .info ("Quantity: " ++ (dictGet order "origQty").getD "None"),
   .info ("Price: " ++ (dictGet order "price").getD "MARKET"),
   .info ("Status: " ++ (dictGet order "status").getD "None"),
   .info ("Time: " ++ (dictGet order "updateTime").getD "0")]

/-- The error log event produced by the except-clauses of the three
order-placement methods (BinanceAPIException first, then
BinanceOrderException, then the catch-all), for context string `ctx`
("market order", "limit order" or "stop-limit order"). -/
def placementExcLog (ctx : String) (e : PyExc) : LogEvent :=
  match e with
  | .binanceAPI sc m =>
      .error ("Binance API Error: " ++ toString sc ++ " - " ++ m)
  | .binanceOrder sc m =>
      .error ("Order Error: " ++ toString sc ++ " - " ++ m)
  | e =>
      let m := pyStr e
      .error ("Unexpected error placing " ++ ctx ++ ": " ++ m)

/-- BasicBot.place_market_order. -/
def BasicBot.place_market_order (b : BotState) (symbol side : String)
    (quantity : Rat) : Effect (Option Dict) :=
  let symbol := (pyUpper symbol)
  let side := (pyUpper side)
  let v := BasicBot.validate_symbol b symbol
  if v.ret = false then
    { ret := none, bot := v.bot, calls := v.calls,
      log := v.log ++
        [placementExcLog "market order" (.valueError ("Invalid symbol: " ++ symbol))] }
  else if ¬ ["BUY", "SELL"].contains side then
    { ret := none, bot := v.bot, calls := v.calls,
      log := v.log ++
        [placementExcLog "market order" (.valueError "Side must be BUY or SELL")] }
  else if quantity ≤ 0 then
    { ret := none, bot := v.bot, calls := v.calls,
      log := v.log ++
        [placementExcLog "market order" (.valueError "Quantity must be positive")] }
  else
    let q := toString quantity
    let placing :=
      LogEvent.info ("Placing MARKET " ++ side ++ " order for " ++ q ++ " " ++ symbol)
    let req : CreateOrderRequest :=
      { symbol := symbol, side := side, type := "MARKET", quantity := quantity }
    match v.bot.client.futures_create_order req with
    | .ok order =>
        { ret := some order, bot := v.bot,
          calls := v.calls ++ [.createOrder req],
          log := v.log ++ [placing] ++ BasicBot.log_order_details order }
    | .error e =>
        { ret := none, bot := v.bot,
          calls := v.calls ++ [.createOrder req],
          log := v.log ++ [placing] ++ [placementExcLog "market order" e] }

/-- BasicBot.place_limit_order. -/
def BasicBot.place_limit_order (b : BotState) (symbol side : String)
    (quantity price : Rat) : Effect (Option Dict) :=
  let symbol := (pyUpper symbol)
  let side := (pyUpper side)
  let v := BasicBot.validate_symbol b symbol
  if v.ret = false then
    { ret := none, bot := v.bot, calls := v.calls,
      log := v.log ++
        [placementExcLog "limit order" (.valueError ("Invalid symbol: " ++ symbol))] }
  else if ¬ ["BUY", "SELL"].contains side then
    { ret := none, bot := v.bot, calls := v.calls,
      log := v.log ++
        [placementExcLog "limit order" (.valueError "Side must be BUY or SELL")] }
  else if quantity ≤ 0 ∨ price ≤ 0 then
    { ret := none, bot := v.bot, calls := v.calls,
      log := v.log ++
        [placementExcLog "limit order"
          (.valueError "Quantity and price must be positive")] }
  else
    let q := toString quantity
    let pr := toString price
    let placing :=
      LogEvent.info ("Placing LIMIT " ++ side ++ " order for " ++ q ++ " " ++
        symbol ++ " at " ++ pr)
    let req : CreateOrderRequest :=
      { symbol := symbol, side := side, type := "LIMIT",
        timeInForce := some "GTC", quantity := quantity, price := some price }
    match v.bot.client.futures_create_order req with
    | .ok order =>
        { ret := some order, bot := v.bot,
          calls := v.calls ++ [.createOrder req],
          log := v.log ++ [placing] ++ BasicBot.log_order_details order }
    | .error e =>
        { ret := none, bot := v.bot,
          calls := v.calls ++ [.createOrder req],
          log := v.log ++ [placing] ++ [placementExcLog "limit order" e] }

/-- BasicBot.place_stop_limit_order. -/
def BasicBot.place_stop_limit_order (b : BotState) (symbol side : String)
    (quantity stop_price limit_price : Rat) : Effect (Option Dict) :=
  let symbol := (pyUpper symbol)
  let side := (pyUpper side)
  let v := BasicBot.validate_symbol b symbol
  if v.ret = false then
    { ret := none, bot := v.bot, calls := v.calls,
      log := v.log ++
        [placementExcLog "stop-limit order" (.valueError ("Invalid symbol: " ++ symbol))] }
  else if ¬ ["BUY", "SELL"].contains side then
    { ret := none, bot := v.bot, calls := v.calls,
      log := v.log ++
        [placementExcLog "stop-limit order" (.valueError "Side must be BUY or SELL")] }
  else if quantity ≤ 0 ∨ stop_price ≤ 0 ∨ limit_price ≤ 0 then
    { ret := none, bot := v.bot, calls := v.calls,
      log := v.log ++
        [placementExcLog "stop-limit order"
          (.valueError "Quantity, stop price, and limit price must be positive")] }
  else
    let q := toString quantity
    let sp := toString stop_price
    let lp := toString limit_price
    let placing :=
      [LogEvent.info ("Placing STOP_LIMIT " ++ side ++ " order for " ++ q ++ " " ++ symbol),
       LogEvent.info ("Stop Price: " ++ sp ++ ", Limit Price: " ++ lp)]
    let req : CreateOrderRequest :=
      { symbol := symbol, side := side, type := "STOP",
        timeInForce := some "GTC", quantity := quantity,
        price := some limit_price, stopPrice := some stop_price }
    match v.bot.client.futures_create_order req with
    | .ok order =>
        { ret := some order, bot := v.bot,
          calls := v.calls ++ [.createOrder req],
          log := v.log ++ placing ++ BasicBot.log_order_details order }
    | .error e =>
        { ret := none, bot := v.bot,
          calls := v.calls ++ [.createOrder req],
          log := v.log ++ placing ++ [placementExcLog "stop-limit order" e] }

/-- The symbol argument actually passed to futures_get_open_orders: the
source guards with Python truthiness (`if symbol:`), so None and the empty
string both fall to the no-argument call. -/
def openOrdersQuery : Option String → Option String
  | some s => if s = "" then none else some (pyUpper s)
  | none => none

/-- BasicBot.get_open_orders. -/
def BasicBot.get_open_orders (b : BotState) (symbol : Option String) :
    Effect (List Dict) :=
  let query := openOrdersQuery symbol
  match b.client.futures_get_open_orders query with
  | .ok orders =>
      let n := toString orders.length
      { ret := orders, bot := b, calls := [.getOpenOrders query],
        log := [.info ("Retrieved " ++ n ++ " open orders")] }
  | .error e =>
      let m := pyStr e
      { ret := [], bot := b, calls := [.getOpenOrders query],
        log := [.error ("Error getting open orders: " ++ m)] }

/-- BasicBot.cancel_order. -/
def BasicBot.cancel_order (b : BotState) (symbol : String) (order_id : Int) :
    Effect Bool :=
  match b.client.futures_cancel_order (pyUpper symbol) order_id with
  | .ok _result =>
      let oid := toString order_id
      { ret := true, bot := b, calls := [.cancelOrder (pyUpper symbol) order_id],
        log := [.info ("Order " ++ oid ++ " cancelled successfully")] }
  | .error e =>
      let m := pyStr e
      { ret := false, bot := b, calls := [.cancelOrder (pyUpper symbol) order_id],
        log := [.error ("Error cancelling order: " ++ m)] }

/-- The record returned by get_user_input. -/
structure OrderParams where
  order_type : String
  symbol : String
  side : String
  quantity : Rat
  price : Option Rat
  stop_price : Option Rat
  limit_price : Option Rat
  deriving DecidableEq

/-- The raw strings the user types at the prompts of get_user_input (prompts
not reached by a given order type are simply ignored). -/
structure UserAnswers where
  order_type : String
  symbol : String
  side_choice : String
  quantity : String
  price : String
  stop_price : String
  limit_price : String
  deriving DecidableEq

/-- get_user_input; `pyFloat` models the Python float() builtin (an error
models the ValueError it raises on unparsable input, which propagates). -/
def get_user_input (pyFloat : String → Except PyExc Rat) (a : UserAnswers) :
    Except PyExc OrderParams :=
  let order_type := (pyStrip a.order_type)
  let symbol := pyUpper (pyStrip a.symbol)
  let side_choice := (pyStrip a.side_choice)
  let side := if side_choice = "1" then "BUY" else "SELL"
  match pyFloat (pyStrip a.quantity) with
  | .error e => .error e
  | .ok quantity =>
    if order_type = "2" then
      match pyFloat (pyStrip a.price) with
      | .error e => .error e
      | .ok price =>
        .ok { order_type := order_type, symbol := symbol, side := side,
              quantity := quantity, price := some price,
              stop_price := none, limit_price := none }
    else if order_type = "3" then
      match pyFloat (pyStrip a.stop_price) with
      | .error e => .error e
      | .ok stop_price =>
        match pyFloat (pyStrip a.limit_price) with
        | .error e => .error e
        | .ok limit_price =>
          .ok { order_type := order_type, symbol := symbol, side := side,
                quantity := quantity, price := none,
                stop_price := some stop_price, limit_price := some limit_price }
    else
      .ok { order_type := order_type, symbol := symbol, side := side,
            quantity := quantity, price := none,
            stop_price := none, limit_price := none }

/-- One iteration of the dispatch in main (the if/elif chain on order_type).
For records coming from get_user_input, the price fields read with getD are
always present in the branch that reads them. -/
def main_iter (b : BotState) (p : OrderParams) : Effect (Option Dict) :=
  if p.order_type = "1" then
    BasicBot.place_market_order b p.symbol p.side p.quantity
  else if p.order_type = "2" then
    BasicBot.place_limit_order b p.symbol p.side p.quantity (p.price.getD 0)
  else if p.order_type = "3" then
    BasicBot.place_stop_limit_order b p.symbol p.side p.quantity
      (p.stop_price.getD 0) (p.limit_price.getD 0)
  else
    { ret := none, bot := b, calls := [],
      log := [.error "Invalid order type selected"] }

/-- The while-loop of main over a script of (record, continue-answer) pairs:
after each iteration the loop repeats only when the stripped, lowercased
continue answer equals y. -/
def main_loop (b : BotState) :
    List (OrderParams × String) → List RemoteCall × List LogEvent
  | [] => ([], [])
  | (p, continue_trading) :: rest =>
      let e := main_iter b p
      if pyLower (pyStrip continue_trading) = "y" then
        let tl := main_loop e.bot rest
        (e.calls ++ tl.1, e.log ++ tl.2)
      else
        (e.calls, e.log)

/-! Validity predicates matching the validation chains of the three
placement methods (used to state the claims; the methods above are the
embedding of the code). -/

/-- The side check shared by the three placement methods, after uppercasing. -/
def sideOK (side : String) : Bool := ["BUY", "SELL"].contains (pyUpper side)

/-- All validations of place_market_order pass. -/
def market_valid (b : BotState) (symbol side : String) (quantity : Rat) : Bool :=
  (BasicBot.validate_symbol b (pyUpper symbol)).ret && sideOK side &&
    !(decide (quantity ≤ 0))

/-- All validations of place_limit_order pass. -/
def limit_valid (b : BotState) (symbol side : String) (quantity price : Rat) : Bool :=
  (BasicBot.validate_symbol b (pyUpper symbol)).ret && sideOK side &&
    !(decide (quantity ≤ 0 ∨ price ≤ 0))

/-- All validations of place_stop_limit_order pass. -/
def stop_limit_valid (b : BotState) (symbol side : String)
    (quantity stop_price limit_price : Rat) : Bool :=
  (BasicBot.validate_symbol b (pyUpper symbol)).ret && sideOK side &&
    !(decide (quantity ≤ 0 ∨ stop_price ≤ 0 ∨ limit_price ≤ 0))

/-- The request a successful validation in place_market_order sends. -/
def marketReq (symbol side : String) (quantity : Rat) : CreateOrderRequest :=
  { symbol := (pyUpper symbol), side := (pyUpper side), type := "MARKET",
    quantity := quantity }

/-- The request a successful validation in place_limit_order sends. -/
def limitReq (symbol side : String) (quantity price : Rat) : CreateOrderRequest :=
  { symbol := (pyUpper symbol), side := (pyUpper side), type := "LIMIT",
    timeInForce := some "GTC", quantity := quantity, price := some price }

/-- The request a successful validation in place_stop_limit_order sends. -/
def stopLimitReq (symbol side : String) (quantity stop_price limit_price : Rat) :
    CreateOrderRequest :=
  { symbol := (pyUpper symbol), side := (pyUpper side), type := "STOP",
    timeInForce := some "GTC", quantity := quantity,
    price := some limit_price, stopPrice := some stop_price }

/-! Concrete oracles used to witness the theorems on concrete runs. -/

/-- An exchange that accepts everything and lists BTCUSDT and ETHUSDT. -/
def okClient : Client where
  API_URL := "https://testnet.binancefuture.com"
  futures_account := .ok [("totalWalletBalance", "1000")]
  futures_exchange_info :=
    .ok { symbols := [{ symbol := "BTCUSDT" }, { symbol := "ETHUSDT" }] }
  futures_create_order := fun req =>
    .ok [("orderId", "1"), ("symbol", req.symbol), ("side", req.side),
         ("type", req.type), ("status", "NEW")]
  futures_get_open_orders := fun _ => .ok [[("orderId", "7")]]
  futures_cancel_order := fun _ _ => .ok [("orderId", "7")]

def okBot : BotState := { client := okClient }

/-- Like okClient, but every order-creation call fails with an API error. -/
def rejectClient : Client :=
  { okClient with
    futures_create_order := fun _ =>
      .error (.binanceAPI (-2019) "Margin is insufficient.") }

def rejectBot : BotState := { client := rejectClient }

/-- An exchange that is unreachable: every endpoint raises. -/
def downClient : Client where
  API_URL := "https://testnet.binancefuture.com"
  futures_account := .error (.other "Connection refused")
  futures_exchange_info := .error (.other "Connection refused")
  futures_create_order := fun _ => .error (.other "Connection refused")
  futures_get_open_orders := fun _ => .error (.other "Connection refused")
  futures_cancel_order := fun _ _ => .error (.other "Connection refused")

def downBot : BotState := { client := downClient }

/-- A blank answer sheet (used only to instantiate witnesses). -/
def noAnswers : UserAnswers :=
  { order_type := "", symbol := "", side_choice := "", quantity := "",
    price := "", stop_price := "", limit_price := "" }

/-- An answer sheet whose side choice is neither 1 nor 2. -/
def oddSideAnswers : UserAnswers :=
  { order_type := "1", symbol := "btcusdt", side_choice := "x",
    quantity := "1", price := "", stop_price := "", limit_price := "" }

/-- The record get_user_input produces from oddSideAnswers when every float
parses to 1. -/
def oddSideRecord : OrderParams :=
  { order_type := "1", symbol := "BTCUSDT", side := "SELL", quantity := 1,
    price := none, stop_price := none, limit_price := none }

theorem char_toUpper_idem (c : Char) : c.toUpper.toUpper = c.toUpper := by
  unfold Char.toUpper
  by_cases h : c.toNat >= 97 ∧ c.toNat <= 122
  · have h2 : 97 ≤ c.val.toNat ∧ c.val.toNat ≤ 122 := h
    have hvalid : (c.val.toNat - 32).isValidChar := by
      left
      omega
    have htn : (Char.ofNat (c.toNat - 32)).toNat = c.toNat - 32 := by
      simp only [Char.ofNat, Char.toNat]
      rw [dif_pos hvalid]
      rfl
    rw [if_pos h, htn, if_neg (by omega)]
  · rw [if_neg h, if_neg h]

theorem pyUpper_idem (s : String) : pyUpper (pyUpper s) = pyUpper s := by
  simp only [pyUpper, List.map_map]
  congr 1
  apply List.map_congr_left
  intro c _
  exact char_toUpper_idem c

theorem validate_symbol_bot (b : BotState) (s : String) :
    (BasicBot.validate_symbol b s).bot = b := by
  unfold BasicBot.validate_symbol
  cases b.client.futures_exchange_info <;> rfl

theorem validate_symbol_calls (b : BotState) (s : String) :
    (BasicBot.validate_symbol b s).calls = [.exchangeInfo] := by
  unfold BasicBot.validate_symbol
  cases b.client.futures_exchange_info <;> rfl

theorem place_market_order_invalid (b : BotState) (symbol side : String)
    (q : Rat) (h : market_valid b symbol side q = false) :
    (BasicBot.place_market_order b symbol side q).ret = none ∧
    (BasicBot.place_market_order b symbol side q).calls = [.exchangeInfo] := by
  unfold BasicBot.place_market_order
  cases hr : (BasicBot.validate_symbol b (pyUpper symbol)).ret with
  | false => simp [hr, validate_symbol_calls]
  | true =>
    simp only [market_valid, sideOK, hr, Bool.true_and] at h
    simp only [hr]
    by_cases h2 : (pyUpper side) = "BUY" ∨ (pyUpper side) = "SELL"
    · have hq : q ≤ 0 := by
        have := Bool.and_eq_false_iff.mp h
        rcases this with hc | hc
        · exact absurd hc (by simp [h2])
        · simpa using hc
      rcases h2 with h2 | h2 <;> simp [h2, hq, validate_symbol_calls]
    · push_neg at h2
      simp [h2.1, h2.2, validate_symbol_calls]

theorem place_market_order_valid (b : BotState) (symbol side : String)
    (q : Rat) (h : market_valid b symbol side q = true) :
    (BasicBot.place_market_order b symbol side q).calls =
      [.exchangeInfo, .createOrder (marketReq symbol side q)] ∧
    (BasicBot.place_market_order b symbol side q).ret =
      (b.client.futures_create_order (marketReq symbol side q)).toOption ∧
    ∀ e, b.client.futures_create_order (marketReq symbol side q) = .error e →
      placementExcLog "market order" e ∈
        (BasicBot.place_market_order b symbol side q).log := by
  simp only [market_valid, sideOK] at h
  simp at h
  obtain ⟨⟨hr, hside⟩, hq⟩ := h
  unfold BasicBot.place_market_order
  simp only [hr, marketReq, validate_symbol_bot, validate_symbol_calls]
  rcases hside with h2 | h2 <;>
    cases hc : b.client.futures_create_order
        { symbol := (pyUpper symbol), side := (pyUpper side), type := "MARKET",
          quantity := q } <;>
    rw [h2] at hc <;>
    simp [h2, hq.not_le, hc, Except.toOption]

theorem place_limit_order_invalid (b : BotState) (symbol side : String)
    (q p : Rat) (h : limit_valid b symbol side q p = false) :
    (BasicBot.place_limit_order b symbol side q p).ret = none ∧
    (BasicBot.place_limit_order b symbol side q p).calls = [.exchangeInfo] := by
  unfold BasicBot.place_limit_order
  cases hr : (BasicBot.validate_symbol b (pyUpper symbol)).ret with
  | false => simp [hr, validate_symbol_calls]
  | true =>
    simp only [limit_valid, sideOK, hr, Bool.true_and] at h
    simp only [hr]
    by_cases h2 : (pyUpper side) = "BUY" ∨ (pyUpper side) = "SELL"
    · have hq : q ≤ 0 ∨ p ≤ 0 := by
        have hcc := Bool.and_eq_false_iff.mp h
        rcases hcc with hc | hc
        · exact absurd hc (by simp [h2])
        · have hd : 0 < q → p ≤ 0 := by simpa using hc
          by_cases hq0 : q ≤ 0
          · exact Or.inl hq0
          · exact Or.inr (hd (not_le.mp hq0))
      rcases h2 with h2 | h2 <;> simp [h2, hq, validate_symbol_calls]
    · push_neg at h2
      simp [h2.1, h2.2, validate_symbol_calls]

theorem place_limit_order_valid (b : BotState) (symbol side : String)
    (q p : Rat) (h : limit_valid b symbol side q p = true) :
    (BasicBot.place_limit_order b symbol side q p).calls =
      [.exchangeInfo, .createOrder (limitReq symbol side q p)] ∧
    (BasicBot.place_limit_order b symbol side q p).ret =
      (b.client.futures_create_order (limitReq symbol side q p)).toOption ∧
    ∀ e, b.client.futures_create_order (limitReq symbol side q p) = .error e →
      placementExcLog "limit order" e ∈
        (BasicBot.place_limit_order b symbol side q p).log := by
  simp only [limit_valid, sideOK] at h
  simp at h
  obtain ⟨⟨hr, hside⟩, hq, hp⟩ := h
  have hqp : ¬ (q ≤ 0 ∨ p ≤ 0) := by
    push_neg
    exact ⟨hq, hp⟩
  unfold BasicBot.place_limit_order
  simp only [hr, limitReq, validate_symbol_bot, validate_symbol_calls]
  rcases hside with h2 | h2 <;>
    cases hc : b.client.futures_create_order
        { symbol := (pyUpper symbol), side := (pyUpper side), type := "LIMIT",
          timeInForce := some "GTC", quantity := q, price := some p } <;>
    rw [h2] at hc <;>
    simp [h2, hqp, hc, Except.toOption]

theorem place_stop_limit_order_invalid (b : BotState) (symbol side : String)
    (q sp lp : Rat) (h : stop_limit_valid b symbol side q sp lp = false) :
    (BasicBot.place_stop_limit_order b symbol side q sp lp).ret = none ∧
    (BasicBot.place_stop_limit_order b symbol side q sp lp).calls =
      [.exchangeInfo] := by
  unfold BasicBot.place_stop_limit_order
  cases hr : (BasicBot.validate_symbol b (pyUpper symbol)).ret with
  | false => simp [hr, validate_symbol_calls]
  | true =>
    simp only [stop_limit_valid, sideOK, hr, Bool.true_and] at h
    simp only [hr]
    by_cases h2 : (pyUpper side) = "BUY" ∨ (pyUpper side) = "SELL"
    · have hq : q ≤ 0 ∨ sp ≤ 0 ∨ lp ≤ 0 := by
        have hcc := Bool.and_eq_false_iff.mp h
        rcases hcc with hc | hc
        · exact absurd hc (by simp [h2])
        · have hd : 0 < q → 0 < sp → lp ≤ 0 := by simpa using hc
          by_cases hq0 : q ≤ 0
          · exact Or.inl hq0
          · by_cases hsp0 : sp ≤ 0
            · exact Or.inr (Or.inl hsp0)
            · exact Or.inr (Or.inr (hd (not_le.mp hq0) (not_le.mp hsp0)))
      rcases h2 with h2 | h2 <;> simp [h2, hq, validate_symbol_calls]
    · push_neg at h2
      simp [h2.1, h2.2, validate_symbol_calls]

theorem place_stop_limit_order_valid (b : BotState) (symbol side : String)
    (q sp lp : Rat) (h : stop_limit_valid b symbol side q sp lp = true) :
    (BasicBot.place_stop_limit_order b symbol side q sp lp).calls =
      [.exchangeInfo, .createOrder (stopLimitReq symbol side q sp lp)] ∧
    (BasicBot.place_stop_limit_order b symbol side q sp lp).ret =
      (b.client.futures_create_order (stopLimitReq symbol side q sp lp)).toOption ∧
    ∀ e, b.client.futures_create_order (stopLimitReq symbol side q sp lp) = .error e →
      placementExcLog "stop-limit order" e ∈
        (BasicBot.place_stop_limit_order b symbol side q sp lp).log := by
  simp only [stop_limit_valid, sideOK] at h
  simp at h
  obtain ⟨⟨hr, hside⟩, hq, hsp, hlp⟩ := h
  have hqp : ¬ (q ≤ 0 ∨ sp ≤ 0 ∨ lp ≤ 0) := by
    push_neg
    exact ⟨hq, hsp, hlp⟩
  unfold BasicBot.place_stop_limit_order
  simp only [hr, stopLimitReq, validate_symbol_bot, validate_symbol_calls]
  rcases hside with h2 | h2 <;>
    cases hc : b.client.futures_create_order
        { symbol := (pyUpper symbol), side := (pyUpper side), type := "STOP",
          timeInForce := some "GTC", quantity := q,
          price := some lp, stopPrice := some sp } <;>
    rw [h2] at hc <;>
    simp [h2, hqp, hc, Except.toOption]

theorem place_market_order_bot (b : BotState) (symbol side : String) (q : Rat) :
    (BasicBot.place_market_order b symbol side q).bot = b := by
  unfold BasicBot.place_market_order
  simp only [validate_symbol_bot]
  repeat' split
  all_goals rfl

theorem place_limit_order_bot (b : BotState) (symbol side : String) (q p : Rat) :
    (BasicBot.place_limit_order b symbol side q p).bot = b := by
  unfold BasicBot.place_limit_order
  simp only [validate_symbol_bot]
  repeat' split
  all_goals rfl

theorem place_stop_limit_order_bot (b : BotState) (symbol side : String)
    (q sp lp : Rat) :
    (BasicBot.place_stop_limit_order b symbol side q sp lp).bot = b := by
  unfold BasicBot.place_stop_limit_order
  simp only [validate_symbol_bot]
  repeat' split
  all_goals rfl

theorem get_open_orders_spec (b : BotState) (symbol : Option String) :
    (BasicBot.get_open_orders b symbol).calls =
      [.getOpenOrders (openOrdersQuery symbol)] ∧
    (BasicBot.get_open_orders b symbol).bot = b ∧
    (BasicBot.get_open_orders b symbol).ret =
      (match b.client.futures_get_open_orders (openOrdersQuery symbol) with
       | .ok orders => orders
       | .error _ => []) := by
  unfold BasicBot.get_open_orders
  cases hx : b.client.futures_get_open_orders (openOrdersQuery symbol) <;>
    simp [hx]

theorem cancel_order_spec (b : BotState) (symbol : String) (order_id : Int) :
    (BasicBot.cancel_order b symbol order_id).calls =
      [.cancelOrder (pyUpper symbol) order_id] ∧
    (BasicBot.cancel_order b symbol order_id).bot = b ∧
    ((BasicBot.cancel_order b symbol order_id).ret = true ↔
      ∃ d, b.client.futures_cancel_order (pyUpper symbol) order_id = .ok d) := by
  unfold BasicBot.cancel_order
  cases hx : b.client.futures_cancel_order (pyUpper symbol) order_id <;>
    simp [hx]

theorem validate_symbol_error (b : BotState) (s : String) (e : PyExc)
    (h : b.client.futures_exchange_info = .error e) :
    BasicBot.validate_symbol b s =
      { ret := false, bot := b, calls := [.exchangeInfo],
        log := [.error ("Symbol validation failed: " ++ pyStr e)] } := by
  unfold BasicBot.validate_symbol
  rw [h]

theorem validate_symbol_not_listed (b : BotState) (s : String)
    (h : ∀ info, b.client.futures_exchange_info = .ok info →
      ((info.symbols.map (fun t => t.symbol)).contains (pyUpper s)) = false) :
    (BasicBot.validate_symbol b (pyUpper s)).ret = false := by
  unfold BasicBot.validate_symbol
  cases hx : b.client.futures_exchange_info with
  | error e => rfl
  | ok info =>
    simp only [pyUpper_idem]
    exact h info hx

/-- Claim C1: each of place_market_order, place_limit_order and
place_stop_limit_order first uppercases symbol and side and validates the
inputs; if the symbol is not listed on the exchange, or the side is not BUY
or SELL, or any applicable numeric argument is nonpositive, the method
returns None and no order-creation call is issued to the exchange. -/
theorem claim_C1 (b : BotState) (symbol side : String) (q p sp lp : Rat) :
    ((∀ info, b.client.futures_exchange_info = .ok info →
        ((info.symbols.map (fun t => t.symbol)).contains (pyUpper symbol)) = false) ∨
       sideOK side = false ∨ q ≤ 0 →
      (BasicBot.place_market_order b symbol side q).ret = none ∧
      ∀ req, RemoteCall.createOrder req ∉
        (BasicBot.place_market_order b symbol side q).calls) ∧
    ((∀ info, b.client.futures_exchange_info = .ok info →
        ((info.symbols.map (fun t => t.symbol)).contains (pyUpper symbol)) = false) ∨
       sideOK side = false ∨ q ≤ 0 ∨ p ≤ 0 →
      (BasicBot.place_limit_order b symbol side q p).ret = none ∧
      ∀ req, RemoteCall.createOrder req ∉
        (BasicBot.place_limit_order b symbol side q p).calls) ∧
    ((∀ info, b.client.futures_exchange_info = .ok info →
        ((info.symbols.map (fun t => t.symbol)).contains (pyUpper symbol)) = false) ∨
       sideOK side = false ∨ q ≤ 0 ∨ sp ≤ 0 ∨ lp ≤ 0 →
      (BasicBot.place_stop_limit_order b symbol side q sp lp).ret = none ∧
      ∀ req, RemoteCall.createOrder req ∉
        (BasicBot.place_stop_limit_order b symbol side q sp lp).calls) := by
  refine ⟨fun h => ?_, fun h => ?_, fun h => ?_⟩
  · have hv : market_valid b symbol side q = false := by
      rcases h with h | h | h
      · simp [market_valid, validate_symbol_not_listed b symbol h]
      · simp [market_valid, h]
      · simp [market_valid, h]
    obtain ⟨h1, h2⟩ := place_market_order_invalid b symbol side q hv
    rw [h1, h2]
    exact ⟨rfl, by simp⟩
  · have hv : limit_valid b symbol side q p = false := by
      rcases h with h | h | h | h
      · simp [limit_valid, validate_symbol_not_listed b symbol h]
      · simp [limit_valid, h]
      · simp [limit_valid, h]
      · simp [limit_valid, h]
    obtain ⟨h1, h2⟩ := place_limit_order_invalid b symbol side q p hv
    rw [h1, h2]
    exact ⟨rfl, by simp⟩
  · have hv : stop_limit_valid b symbol side q sp lp = false := by
      rcases h with h | h | h | h | h
      · simp [stop_limit_valid, validate_symbol_not_listed b symbol h]
      · simp [stop_limit_valid, h]
      · simp [stop_limit_valid, h]
      · simp [stop_limit_valid, h]
      · simp [stop_limit_valid, h]
    obtain ⟨h1, h2⟩ := place_stop_limit_order_invalid b symbol side q sp lp hv
    rw [h1, h2]
    exact ⟨rfl, by simp⟩

/-- Witness for C1: a market order with side HOLD on a healthy exchange is
refused without any order-creation call. -/
theorem claim_C1_witness :
    (BasicBot.place_market_order okBot "BTCUSDT" "HOLD" 1).ret = none ∧
    ∀ req, RemoteCall.createOrder req ∉
      (BasicBot.place_market_order okBot "BTCUSDT" "HOLD" 1).calls :=
  (claim_C1 okBot "BTCUSDT" "HOLD" 1 1 1 1).1 (Or.inr (Or.inl (by decide)))

/-- Claim C2: in each placement method, when the inputs validate, the return
value is exactly the outcome of the remote order-creation call: the order
dict on success, None on any raised exception, whose handler log event is
emitted.  The methods are total functions into Effect, so no exception
propagates to the caller. -/
theorem claim_C2 (b : BotState) (symbol side : String) (q p sp lp : Rat) :
    (market_valid b symbol side q = true →
      (BasicBot.place_market_order b symbol side q).ret =
        (b.client.futures_create_order (marketReq symbol side q)).toOption ∧
      ∀ e, b.client.futures_create_order (marketReq symbol side q) = .error e →
        placementExcLog "market order" e ∈
          (BasicBot.place_market_order b symbol side q).log) ∧
    (limit_valid b symbol side q p = true →
      (BasicBot.place_limit_order b symbol side q p).ret =
        (b.client.futures_create_order (limitReq symbol side q p)).toOption ∧
      ∀ e, b.client.futures_create_order (limitReq symbol side q p) = .error e →
        placementExcLog "limit order" e ∈
          (BasicBot.place_limit_order b symbol side q p).log) ∧
    (stop_limit_valid b symbol side q sp lp = true →
      (BasicBot.place_stop_limit_order b symbol side q sp lp).ret =
        (b.client.futures_create_order (stopLimitReq symbol side q sp lp)).toOption ∧
      ∀ e, b.client.futures_create_order (stopLimitReq symbol side q sp lp) = .error e →
        placementExcLog "stop-limit order" e ∈
          (BasicBot.place_stop_limit_order b symbol side q sp lp).log) ∧
    (market_valid b symbol side q = false →
      (BasicBot.place_market_order b symbol side q).ret = none) ∧
    (limit_valid b symbol side q p = false →
      (BasicBot.place_limit_order b symbol side q p).ret = none) ∧
    (stop_limit_valid b symbol side q sp lp = false →
      (BasicBot.place_stop_limit_order b symbol side q sp lp).ret = none) := by
  refine ⟨fun h => ?_, fun h => ?_, fun h => ?_, fun h => ?_, fun h => ?_, fun h => ?_⟩
  · exact ⟨(place_market_order_valid b symbol side q h).2.1,
      (place_market_order_valid b symbol side q h).2.2⟩
  · exact ⟨(place_limit_order_valid b symbol side q p h).2.1,
      (place_limit_order_valid b symbol side q p h).2.2⟩
  · exact ⟨(place_stop_limit_order_valid b symbol side q sp lp h).2.1,
      (place_stop_limit_order_valid b symbol side q sp lp h).2.2⟩
  · exact (place_market_order_invalid b symbol side q h).1
  · exact (place_limit_order_invalid b symbol side q p h).1
  · exact (place_stop_limit_order_invalid b symbol side q sp lp h).1

/-- Witness for C2: on a healthy exchange the market order returns the order
dict from the exchange; when the exchange rejects the order, None comes back
and the API-error event is logged. -/
theorem claim_C2_witness :
    (BasicBot.place_market_order okBot "btcusdt" "buy" 1).ret =
      (okBot.client.futures_create_order (marketReq "btcusdt" "buy" 1)).toOption ∧
    (BasicBot.place_market_order rejectBot "BTCUSDT" "BUY" 2).ret =
      (rejectBot.client.futures_create_order (marketReq "BTCUSDT" "BUY" 2)).toOption ∧
    placementExcLog "market order" (.binanceAPI (-2019) "Margin is insufficient.") ∈
      (BasicBot.place_market_order rejectBot "BTCUSDT" "BUY" 2).log :=
  ⟨((claim_C2 okBot "btcusdt" "buy" 1 1 1 1).1 (by decide)).1,
   ((claim_C2 rejectBot "BTCUSDT" "BUY" 2 2 2 2).1 (by decide)).1,
   ((claim_C2 rejectBot "BTCUSDT" "BUY" 2 2 2 2).1 (by decide)).2 _ rfl⟩

/-- Counterexample to C3 as stated: a successful market order issues two
remote calls through the SDK client, the exchange-info query made by symbol
validation and the order-creation call, so it does not issue exactly one
synchronous remote call. -/
theorem claim_C3_counterexample :
    (BasicBot.place_market_order okBot "BTCUSDT" "BUY" 1).calls.length = 2 := by
  decide

/-- Claim C3 (amended): each order-query method issues exactly one remote
call per invocation; each order-placement method issues one exchange-info
remote call for symbol validation and, exactly when all validations pass,
one additional order-creation call. -/
theorem claim_C3_amended (b : BotState) (symbol side : String) (q p sp lp : Rat)
    (osym : Option String) (oid : Int) :
    (BasicBot.get_open_orders b osym).calls.length = 1 ∧
    (BasicBot.cancel_order b symbol oid).calls.length = 1 ∧
    (BasicBot.place_market_order b symbol side q).calls =
      .exchangeInfo ::
        (if market_valid b symbol side q then
          [.createOrder (marketReq symbol side q)] else []) ∧
    (BasicBot.place_limit_order b symbol side q p).calls =
      .exchangeInfo ::
        (if limit_valid b symbol side q p then
          [.createOrder (limitReq symbol side q p)] else []) ∧
    (BasicBot.place_stop_limit_order b symbol side q sp lp).calls =
      .exchangeInfo ::
        (if stop_limit_valid b symbol side q sp lp then
          [.createOrder (stopLimitReq symbol side q sp lp)] else []) := by
  refine ⟨?_, ?_, ?_, ?_, ?_⟩
  · rw [(get_open_orders_spec b osym).1]
    rfl
  · rw [(cancel_order_spec b symbol oid).1]
    rfl
  · by_cases h : market_valid b symbol side q = true
    · rw [(place_market_order_valid b symbol side q h).1, if_pos h]
    · rw [(place_market_order_invalid b symbol side q
        (Bool.not_eq_true _ ▸ h : market_valid b symbol side q = false)).2, if_neg h]
  · by_cases h : limit_valid b symbol side q p = true
    · rw [(place_limit_order_valid b symbol side q p h).1, if_pos h]
    · rw [(place_limit_order_invalid b symbol side q p
        (Bool.not_eq_true _ ▸ h : limit_valid b symbol side q p = false)).2, if_neg h]
  · by_cases h : stop_limit_valid b symbol side q sp lp = true
    · rw [(place_stop_limit_order_valid b symbol side q sp lp h).1, if_pos h]
    · rw [(place_stop_limit_order_invalid b symbol side q sp lp
        (Bool.not_eq_true _ ▸ h : stop_limit_valid b symbol side q sp lp = false)).2,
        if_neg h]

/-- Claim C4: the main loop dispatches order_type 1 to place_market_order
with (symbol, side, quantity), 2 to place_limit_order adding price, 3 to
place_stop_limit_order adding stop and limit price, places no order and
logs an error for any other order_type; records from get_user_input carry
the price fields their order_type needs; and the loop repeats exactly when
the stripped, lowercased continue answer equals y. -/
theorem claim_C4 (b : BotState) (p : OrderParams)
    (rest : List (OrderParams × String)) (cont : String)
    (pf : String → Except PyExc Rat) (a : UserAnswers) :
    (p.order_type = "1" →
      main_iter b p = BasicBot.place_market_order b p.symbol p.side p.quantity) ∧
    (∀ pr, p.order_type = "2" → p.price = some pr →
      main_iter b p = BasicBot.place_limit_order b p.symbol p.side p.quantity pr) ∧
    (∀ s2 l2, p.order_type = "3" → p.stop_price = some s2 → p.limit_price = some l2 →
      main_iter b p =
        BasicBot.place_stop_limit_order b p.symbol p.side p.quantity s2 l2) ∧
    (p.order_type ≠ "1" → p.order_type ≠ "2" → p.order_type ≠ "3" →
      (main_iter b p).calls = [] ∧
      (main_iter b p).log = [.error "Invalid order type selected"] ∧
      (main_iter b p).ret = none) ∧
    (∀ op, get_user_input pf a = .ok op →
      (op.order_type = "2" → ∃ pr, op.price = some pr) ∧
      (op.order_type = "3" →
        (∃ s2, op.stop_price = some s2) ∧ (∃ l2, op.limit_price = some l2))) ∧
    (pyLower (pyStrip cont) = "y" →
      main_loop b ((p, cont) :: rest) =
        ((main_iter b p).calls ++ (main_loop (main_iter b p).bot rest).1,
         (main_iter b p).log ++ (main_loop (main_iter b p).bot rest).2)) ∧
    (pyLower (pyStrip cont) ≠ "y" →
      main_loop b ((p, cont) :: rest) =
        ((main_iter b p).calls, (main_iter b p).log)) := by
  refine ⟨fun h => ?_, fun pr h hpr => ?_, fun s2 l2 h hs hl => ?_,
    fun h1 h2 h3 => ?_, fun op hop => ?_, fun h => ?_, fun h => ?_⟩
  · simp [main_iter, h]
  · simp [main_iter, h, hpr]
  · simp [main_iter, h, hs, hl]
  · simp [main_iter, h1, h2, h3]
  · cases hq : pf (pyStrip a.quantity) with
    | error e =>
      simp [get_user_input, hq] at hop
    | ok qv =>
      simp only [get_user_input, hq] at hop
      by_cases h2 : (pyStrip a.order_type) = "2"
      · cases hp : pf (pyStrip a.price) with
        | error e =>
          rw [if_pos h2, hp] at hop
          simp at hop
        | ok prv =>
          rw [if_pos h2, hp] at hop
          simp only [Except.ok.injEq] at hop
          subst hop
          simp [h2]
      · by_cases h3 : (pyStrip a.order_type) = "3"
        · cases hs : pf (pyStrip a.stop_price) with
          | error e =>
            rw [if_neg h2, if_pos h3, hs] at hop
            simp at hop
          | ok spv =>
            cases hl : pf (pyStrip a.limit_price) with
            | error e =>
              rw [if_neg h2, if_pos h3, hs, hl] at hop
              simp at hop
            | ok lpv =>
              rw [if_neg h2, if_pos h3, hs, hl] at hop
              simp only [Except.ok.injEq] at hop
              subst hop
              simp [h2, h3]
        · rw [if_neg h2, if_neg h3] at hop
          simp only [Except.ok.injEq] at hop
          subst hop
          simp [h2, h3]
  · simp [main_loop, h]
  · simp [main_loop, h]

/-- Witness for C4: on concrete records, a type-2 record dispatches to the
limit-order method and a one-element script with continue answer n stops
after its iteration. -/
theorem claim_C4_witness :
    main_iter okBot
        { order_type := "2", symbol := "BTCUSDT", side := "BUY", quantity := 1,
          price := some 50000, stop_price := none, limit_price := none } =
      BasicBot.place_limit_order okBot "BTCUSDT" "BUY" 1 50000 ∧
    main_loop okBot
        [({ order_type := "9", symbol := "X", side := "BUY", quantity := 1,
            price := none, stop_price := none, limit_price := none }, "n")] =
      ([], [.error "Invalid order type selected"]) := by
  constructor
  · exact (claim_C4 okBot
      { order_type := "2", symbol := "BTCUSDT", side := "BUY", quantity := 1,
        price := some 50000, stop_price := none, limit_price := none }
      [] "n" (fun _ => .ok 1) noAnswers).2.1 50000 rfl rfl
  · have h := claim_C4 okBot
      { order_type := "9", symbol := "X", side := "BUY", quantity := 1,
        price := none, stop_price := none, limit_price := none }
      [] "n" (fun _ => .ok 1) noAnswers
    rw [h.2.2.2.2.2.2 (by decide)]
    rw [(h.2.2.2.1 (by decide) (by decide) (by decide)).1,
      (h.2.2.2.1 (by decide) (by decide) (by decide)).2.1]

/-- Claim C5: get_open_orders returns the empty list when the remote query
raises and the received list otherwise, querying with the uppercased symbol
when a nonempty one is given; cancel_order returns True exactly when the
remote cancel call succeeds. -/
theorem claim_C5 (b : BotState) (osym : Option String) (s2 symbol : String)
    (oid : Int) :
    (∀ e, b.client.futures_get_open_orders (openOrdersQuery osym) = .error e →
      (BasicBot.get_open_orders b osym).ret = []) ∧
    (∀ l, b.client.futures_get_open_orders (openOrdersQuery osym) = .ok l →
      (BasicBot.get_open_orders b osym).ret = l) ∧
    (s2 ≠ "" → openOrdersQuery (some s2) = some (pyUpper s2)) ∧
    ((BasicBot.cancel_order b symbol oid).ret = true ↔
      ∃ d, b.client.futures_cancel_order (pyUpper symbol) oid = .ok d) := by
  refine ⟨fun e he => ?_, fun l hl => ?_, fun hs => ?_,
    (cancel_order_spec b symbol oid).2.2⟩
  · rw [(get_open_orders_spec b osym).2.2, he]
  · rw [(get_open_orders_spec b osym).2.2, hl]
  · simp [openOrdersQuery, hs]

/-- Witness for C5: an unreachable exchange yields the empty list, a healthy
one yields its order list, and a successful cancel returns True. -/
theorem claim_C5_witness :
    (BasicBot.get_open_orders downBot (some "btcusdt")).ret = [] ∧
    (BasicBot.get_open_orders okBot none).ret = [[("orderId", "7")]] ∧
    (BasicBot.cancel_order okBot "btcusdt" 7).ret = true :=
  ⟨(claim_C5 downBot (some "btcusdt") "x" "x" 0).1 _ rfl,
   (claim_C5 okBot none "x" "x" 0).2.1 _ rfl,
   ((claim_C5 okBot none "x" "btcusdt" 7).2.2.2).mpr ⟨_, rfl⟩⟩

/-- Claim C6: construction builds one client handle and tests the connection
with a futures-account query; a construction or connection-test failure is
re-raised after logging, so an instance only exists when the account query
succeeded. -/
theorem claim_C6 (construct : Except PyExc Client) (testnet : Bool) :
    (∀ bb, (BasicBot.init construct testnet).1 = .ok bb →
      ∃ acct, bb.client.futures_account = .ok acct) ∧
    (∀ client, construct = .ok client →
      RemoteCall.account ∈ (BasicBot.init construct testnet).2.1) ∧
    (∀ e, construct = .error e →
      (BasicBot.init construct testnet).1 = .error e) ∧
    (∀ client e, construct = .ok client → client.futures_account = .error e →
      (BasicBot.init construct testnet).1 = .error e) := by
  cases construct with
  | error e0 =>
    refine ⟨fun bb hb => ?_, fun client hc => ?_, fun e he => ?_,
      fun client e hc he => ?_⟩
    · simp [BasicBot.init] at hb
    · exact absurd hc (by simp)
    · simp only [Except.error.injEq] at he
      subst he
      rfl
    · exact absurd hc (by simp)
  | ok c0 =>
    refine ⟨fun bb hb => ?_, fun client hc => ?_, fun e he => ?_,
      fun client e hc he => ?_⟩
    · cases ha : c0.futures_account with
      | ok acct =>
        cases testnet with
        | true =>
          simp [BasicBot.init, BasicBot.test_connection, ha] at hb
          subst hb
          exact ⟨acct, rfl⟩
        | false =>
          simp [BasicBot.init, BasicBot.test_connection, ha] at hb
          subst hb
          exact ⟨acct, ha⟩
      | error e1 =>
        cases testnet <;>
          simp [BasicBot.init, BasicBot.test_connection, ha] at hb
    · cases ha : c0.futures_account with
      | ok acct =>
        cases testnet <;> simp [BasicBot.init, BasicBot.test_connection, ha]
      | error e1 =>
        cases testnet <;> simp [BasicBot.init, BasicBot.test_connection, ha]
    · exact absurd he (by simp)
    · simp only [Except.ok.injEq] at hc
      subst hc
      cases testnet <;>
        simp [BasicBot.init, BasicBot.test_connection, he]

/-- Witness for C6: with a reachable exchange the constructor queries the
futures account; a failed construction re-raises its exception. -/
theorem claim_C6_witness :
    RemoteCall.account ∈ (BasicBot.init (.ok okClient) true).2.1 ∧
    (BasicBot.init (.error (.other "bad key")) true).1 =
      .error (.other "bad key") ∧
    (BasicBot.init (.ok downClient) true).1 =
      .error (.other "Connection refused") :=
  ⟨(claim_C6 (.ok okClient) true).2.1 okClient rfl,
   (claim_C6 (.error (.other "bad key")) true).2.2.1 _ rfl,
   (claim_C6 (.ok downClient) true).2.2.2 downClient _ rfl rfl⟩

/-- Claim C7: no method of a constructed bot mutates its state: after each
order-placement or order-query call the bot (its single client field) is
unchanged, and nothing fetched from the exchange is retained. -/
theorem claim_C7 (b : BotState) (symbol side s2 : String) (q p sp lp : Rat)
    (osym : Option String) (oid : Int) :
    (BasicBot.validate_symbol b s2).bot = b ∧
    (BasicBot.place_market_order b symbol side q).bot = b ∧
    (BasicBot.place_limit_order b symbol side q p).bot = b ∧
    (BasicBot.place_stop_limit_order b symbol side q sp lp).bot = b ∧
    (BasicBot.get_open_orders b osym).bot = b ∧
    (BasicBot.cancel_order b symbol oid).bot = b :=
  ⟨validate_symbol_bot b s2, place_market_order_bot b symbol side q,
   place_limit_order_bot b symbol side q p,
   place_stop_limit_order_bot b symbol side q sp lp,
   (get_open_orders_spec b osym).2.1, (cancel_order_spec b symbol oid).2.1⟩

/-- Claim C8: when the exchange-information query raises, _validate_symbol
returns False, every placement method returns None without issuing an
order-creation call, and the failure is logged as an invalid symbol. -/
theorem claim_C8 (b : BotState) (symbol side : String) (q p sp lp : Rat)
    (e : PyExc) (h : b.client.futures_exchange_info = .error e) :
    (BasicBot.validate_symbol b symbol).ret = false ∧
    (BasicBot.place_market_order b symbol side q).ret = none ∧
    (BasicBot.place_limit_order b symbol side q p).ret = none ∧
    (BasicBot.place_stop_limit_order b symbol side q sp lp).ret = none ∧
    placementExcLog "market order"
        (.valueError ("Invalid symbol: " ++ pyUpper symbol)) ∈
      (BasicBot.place_market_order b symbol side q).log ∧
    ∀ req, RemoteCall.createOrder req ∉
      (BasicBot.place_market_order b symbol side q).calls := by
  have hv := validate_symbol_error b (pyUpper symbol) e h
  have hr : (BasicBot.validate_symbol b (pyUpper symbol)).ret = false := by
    rw [hv]
  have hm : market_valid b symbol side q = false := by
    simp [market_valid, hr]
  have hl : limit_valid b symbol side q p = false := by
    simp [limit_valid, hr]
  have hs : stop_limit_valid b symbol side q sp lp = false := by
    simp [stop_limit_valid, hr]
  refine ⟨by rw [validate_symbol_error b symbol e h],
    (place_market_order_invalid b symbol side q hm).1,
    (place_limit_order_invalid b symbol side q p hl).1,
    (place_stop_limit_order_invalid b symbol side q sp lp hs).1, ?_, ?_⟩
  · unfold BasicBot.place_market_order
    simp [hv]
  · rw [(place_market_order_invalid b symbol side q hm).2]
    simp

/-- Witness for C8: against the unreachable exchange, a market order comes
back None with the invalid-symbol log event present. -/
theorem claim_C8_witness :
    (BasicBot.place_market_order downBot "BTCUSDT" "BUY" 1).ret = none ∧
    placementExcLog "market order"
        (.valueError ("Invalid symbol: " ++ pyUpper "BTCUSDT")) ∈
      (BasicBot.place_market_order downBot "BTCUSDT" "BUY" 1).log := by
  have h := claim_C8 downBot "BTCUSDT" "BUY" 1 1 1 1 (.other "Connection refused") rfl
  exact ⟨h.2.1, h.2.2.2.2.1⟩

/-- Claim C9: if the stripped side choice differs from the string 1, the
record get_user_input returns carries side SELL; the entry is never
rejected. -/
theorem claim_C9 (pf : String → Except PyExc Rat) (a : UserAnswers)
    (op : OrderParams) (h : pyStrip a.side_choice ≠ "1")
    (hok : get_user_input pf a = .ok op) : op.side = "SELL" := by
  cases hq : pf (pyStrip a.quantity) with
  | error e => simp [get_user_input, hq] at hok
  | ok qv =>
    simp only [get_user_input, hq] at hok
    by_cases h2 : pyStrip a.order_type = "2"
    · cases hp : pf (pyStrip a.price) with
      | error e =>
        rw [if_pos h2, hp] at hok
        simp at hok
      | ok prv =>
        rw [if_pos h2, hp] at hok
        simp only [Except.ok.injEq] at hok
        subst hok
        simp [h]
    · by_cases h3 : pyStrip a.order_type = "3"
      · cases hsp : pf (pyStrip a.stop_price) with
        | error e =>
          rw [if_neg h2, if_pos h3, hsp] at hok
          simp at hok
        | ok spv =>
          cases hlp : pf (pyStrip a.limit_price) with
          | error e =>
            rw [if_neg h2, if_pos h3, hsp, hlp] at hok
            simp at hok
          | ok lpv =>
            rw [if_neg h2, if_pos h3, hsp, hlp] at hok
            simp only [Except.ok.injEq] at hok
            subst hok
            simp [h]
      · rw [if_neg h2, if_neg h3] at hok
        simp only [Except.ok.injEq] at hok
        subst hok
        simp [h]

/-- Witness for C9: the side choice x silently selects SELL. -/
theorem claim_C9_witness :
    get_user_input (fun _ => .ok 1) oddSideAnswers = .ok oddSideRecord ∧
    oddSideRecord.side = "SELL" :=
  ⟨rfl, claim_C9 (fun _ => .ok 1) oddSideAnswers oddSideRecord (by decide) rfl⟩

/-- Claim C10: a validated stop-limit order sends a request with order type
STOP, timeInForce GTC, price equal to the limit price argument and stopPrice
equal to the stop price argument. -/
theorem claim_C10 (b : BotState) (symbol side : String) (q sp lp : Rat)
    (h : stop_limit_valid b symbol side q sp lp = true) :
    (BasicBot.place_stop_limit_order b symbol side q sp lp).calls =
      [.exchangeInfo, .createOrder (stopLimitReq symbol side q sp lp)] ∧
    (stopLimitReq symbol side q sp lp).type = "STOP" ∧
    (stopLimitReq symbol side q sp lp).timeInForce = some "GTC" ∧
    (stopLimitReq symbol side q sp lp).price = some lp ∧
    (stopLimitReq symbol side q sp lp).stopPrice = some sp :=
  ⟨(place_stop_limit_order_valid b symbol side q sp lp h).1, rfl, rfl, rfl, rfl⟩

/-- Witness for C10: a concrete validated stop-limit order issues exactly
the STOP/GTC request with the given prices. -/
theorem claim_C10_witness :
    (BasicBot.place_stop_limit_order okBot "btcusdt" "sell" 1 95 94).calls =
      [.exchangeInfo, .createOrder (stopLimitReq "btcusdt" "sell" 1 95 94)] ∧
    (stopLimitReq "btcusdt" "sell" 1 95 94).type = "STOP" ∧
    (stopLimitReq "btcusdt" "sell" 1 95 94).timeInForce = some "GTC" ∧
    (stopLimitReq "btcusdt" "sell" 1 95 94).price = some 94 ∧
    (stopLimitReq "btcusdt" "sell" 1 95 94).stopPrice = some 95 :=
  claim_C10 okBot "btcusdt" "sell" 1 95 94 (by decide)

end TradingBot
